import Mathlib

/-
Verification of the layered packet-decoding core (package gopacket).

Bytes are modelled as natural numbers, byte spans as lists; a Go nil slice
is the empty list.  Go errors are modelled by their message string.  The
in-place mutation of the shared specificLayers struct is modelled by each
decoder returning the updated struct alongside its decodeResult.
-/

namespace gopacket

/-- Modelled from the spec: the generic payload layer object (its definition
lives in a repository file outside the given fragment): it wraps the
undecoded remainder bytes verbatim in its Data field, as constructed by
decodePayload. -/
structure Payload where
  Data : List Nat
deriving DecidableEq

/-- DecodeFailure is a packet layer created if decoding of the packet data
failed for some reason.  Its fields mirror the source struct: the bytes
that failed to decode and the error encountered. -/
structure DecodeFailure where
  data : List Nat
  err : String
deriving DecidableEq

/-- Modelled from the spec: layer type tags (the LayerType enumeration is
defined outside the given fragment) form an open enumeration plus one
reserved tag for decode failure; tags are modelled as naturals. -/
abbrev LayerType := Nat

/-- Modelled from the spec: the reserved type tag for the decode-failure
layer (its concrete value is defined outside the given fragment). -/
def TYPE_DECODE_FAILURE : LayerType := 0

/-- Returns the entire payload which failed to be decoded. -/
def DecodeFailure.Payload (d : DecodeFailure) : List Nat := d.data

/-- Returns the error encountered during decoding. -/
def DecodeFailure.Error (d : DecodeFailure) : String := d.err

/-- Returns TYPE_DECODE_FAILURE. -/
def DecodeFailure.LayerType (_ : DecodeFailure) : LayerType := TYPE_DECODE_FAILURE

/-- Modelled from the spec: the polymorphic Layer entity (the Layer
interface is defined outside the given fragment).  Variants: an opaque
concrete protocol layer carrying a type tag and its payload bytes, the
generic payload layer, and the decode-failure (error) layer. -/
inductive Layer : Type where
  | genericL (tag : LayerType) (data : List Nat)
  | payloadL (p : Payload)
  | failureL (f : DecodeFailure)
deriving DecidableEq

/-- Modelled from the spec: the specificLayers struct (defined outside the
given fragment): optional slots for the canonical link, network, transport
and application layers, plus the error layer. -/
structure specificLayers where
  link : Option Layer := none
  network : Option Layer := none
  transport : Option Layer := none
  application : Option Layer := none
  failure : Option Layer := none
deriving DecidableEq

/-- The result of one decode call: an error encountered in this decode call
(if set, everything else is ignored), the layer created, the next decoder
to call, and the bytes left to be decoded.  A decoder is a function from
bytes and the specificLayers struct to a decodeResult paired with the
updated struct. -/
inductive decodeResult : Type where
  | mk (err : Option String) (layer : Option Layer)
      (next : Option (List Nat → specificLayers → decodeResult × specificLayers))
      (left : List Nat) : decodeResult

/-- The error field of a decodeResult. -/
def decodeResult.err : decodeResult → Option String
  | .mk e _ _ _ => e

/-- The layer field of a decodeResult. -/
def decodeResult.layer : decodeResult → Option Layer
  | .mk _ l _ _ => l

/-- The next-decoder field of a decodeResult. -/
def decodeResult.next :
    decodeResult → Option (List Nat → specificLayers → decodeResult × specificLayers)
  | .mk _ _ n _ => n

/-- The left-over bytes field of a decodeResult. -/
def decodeResult.left : decodeResult → List Nat
  | .mk _ _ _ l => l

/-- decoderFunc is an implementation of decoder that is a simple function. -/
abbrev decoderFunc := List Nat → specificLayers → decodeResult × specificLayers

/-- The decode method of decoderFunc: function, call thyself. -/
def decoderFunc.decode (d : decoderFunc) (data : List Nat) (s : specificLayers) :
    decodeResult × specificLayers :=
  d data s

/-- DecodeMethod tells gopacket how to decode a packet; in the source it is
a boolean type. -/
abbrev DecodeMethod := Bool

/-- Lazy decoding decodes the minimum number of layers needed to return
data for a packet at each function call. -/
def Lazy : DecodeMethod := true

/-- Eager decoding decodes all layers of a packet immediately. -/
def Eager : DecodeMethod := false

/-- decodeUnknown decodes unsupported data types by returning an error; it
thus always yields a DecodeFailure layer.  The named return value out
starts at its zero value and only out.err is set. -/
def decodeUnknown : decoderFunc := fun _data s =>
  (decodeResult.mk (some "Link type not currently supported") none none [], s)

/-- decodePayload decodes data by returning it all in a Payload layer; the
same payload layer is stored into the application slot of the
specificLayers struct. -/
def decodePayload : decoderFunc := fun data s =>
  (decodeResult.mk none (some (Layer.payloadL (Payload.mk data))) none [],
    { s with application := some (Layer.payloadL (Payload.mk data)) })

/-- Modelled from the spec: the decoder registry (defined outside the given
fragment), a mapping from link-type identifiers to the decoder starting a
chain for that type; lookup of an unregistered type yields the unknown
decoder, never an error. -/
def lookupDecoder (reg : List (Nat × decoderFunc)) (lt : Nat) : decoderFunc :=
  match reg.find? (fun kv => kv.fst == lt) with
  | some kv => kv.snd
  | none => decodeUnknown

/-- Modelled from the spec: the decode state of the Packet facade (defined
outside the given fragment): the ordered chain of decoded layers, the
shared specificLayers cache, and the pending decoder with its pending
bytes (none once decoding is complete). -/
structure Packet where
  layers : List Layer
  specific : specificLayers
  pending : Option (decoderFunc × List Nat)

/-- Modelled from the spec: one step of the decode dispatcher (defined
outside the given fragment).  It invokes the pending decoder on the
pending bytes; on failure it appends a synthesized error layer carrying
the failure and stops; otherwise it appends the produced layer and
continues with the next decoder exactly when one is given and the
remainder is non-empty. -/
def decodeStep (p : Packet) : Packet :=
  match p.pending with
  | none => p
  | some (d, data) =>
    let rs := d data p.specific
    match rs.fst.err with
    | some e =>
      let eLayer := Layer.failureL (DecodeFailure.mk data e)
      { layers := p.layers ++ [eLayer],
        specific := { rs.snd with failure := some eLayer },
        pending := none }
    | none =>
      { layers := p.layers ++ rs.fst.layer.toList,
        specific := rs.snd,
        pending :=
          match rs.fst.next with
          | some d2 => if rs.fst.left = [] then none else some (d2, rs.fst.left)
          | none => none }

/-- Modelled from the spec: eager decoding runs the dispatcher to
completion at construction time, stopping as soon as nothing is pending.
The recursion is bounded by fuel, since a pathological decoder returning
itself could otherwise loop. -/
def decodeAll : Nat → Packet → Packet
  | 0, p => p
  | n + 1, p =>
    match p.pending with
    | none => p
    | some _ => decodeAll n (decodeStep p)

/-- Modelled from the spec: forcing a lazy packet performs single decode
steps on demand, one per access, here iterated a given number of times. -/
def forceDecode : Nat → Packet → Packet
  | 0, p => p
  | n + 1, p => forceDecode n (decodeStep p)

/-- Modelled from the spec: packet construction in the facade (defined
outside the given fragment): look up the first decoder for the link type;
in Eager mode run the dispatcher to completion immediately, in Lazy mode
leave the packet unstarted. -/
def newPacket (reg : List (Nat × decoderFunc)) (data : List Nat) (lt : Nat)
    (m : DecodeMethod) (fuel : Nat) : Packet :=
  let p0 : Packet := ⟨[], {}, some (lookupDecoder reg lt, data)⟩
  if m = Lazy then p0 else decodeAll fuel p0

/-! Helper lemmas about the dispatcher. -/

/-- A completed packet is a fixed point of the dispatcher step. -/
theorem decodeStep_of_pending_none (p : Packet) (h : p.pending = none) :
    decodeStep p = p := by
  unfold decodeStep
  rw [h]

/-- Eager decoding leaves a completed packet unchanged. -/
theorem decodeAll_of_pending_none (n : Nat) (p : Packet) (h : p.pending = none) :
    decodeAll n p = p := by
  cases n with
  | zero => rfl
  | succ k =>
    unfold decodeAll
    rw [h]

/-- Forcing a completed packet leaves it unchanged. -/
theorem forceDecode_of_pending_none (n : Nat) (p : Packet) (h : p.pending = none) :
    forceDecode n p = p := by
  induction n generalizing p with
  | zero => rfl
  | succ k ih =>
    unfold forceDecode
    rw [decodeStep_of_pending_none p h]
    exact ih p h

/-- Running the dispatcher to completion eagerly coincides with forcing the
same number of lazy steps. -/
theorem decodeAll_eq_forceDecode (n : Nat) (p : Packet) :
    decodeAll n p = forceDecode n p := by
  induction n generalizing p with
  | zero => rfl
  | succ k ih =>
    unfold decodeAll forceDecode
    cases h : p.pending with
    | none =>
      rw [decodeStep_of_pending_none p h, forceDecode_of_pending_none k p h]
    | some pd => exact ih (decodeStep p)

/-! Claim theorems. -/

/-- C1: for every registry, input byte span, link type and fuel bound,
decoding fully in Eager mode and decoding fully in Lazy mode (forcing the
full decode) produce identical ordered layer sequences and identical
specificLayers contents: the evaluation mode affects only when layers are
computed, not what they contain. -/
theorem mode_equivalence (reg : List (Nat × decoderFunc)) (data : List Nat)
    (lt : Nat) (fuel : Nat) :
    (forceDecode fuel (newPacket reg data lt Lazy fuel)).layers =
      (newPacket reg data lt Eager fuel).layers ∧
    (forceDecode fuel (newPacket reg data lt Lazy fuel)).specific =
      (newPacket reg data lt Eager fuel).specific := by
  have hL : newPacket reg data lt Lazy fuel =
      ⟨[], {}, some (lookupDecoder reg lt, data)⟩ := by
    simp [newPacket, Lazy]
  have hE : newPacket reg data lt Eager fuel =
      decodeAll fuel ⟨[], {}, some (lookupDecoder reg lt, data)⟩ := by
    simp [newPacket, Lazy, Eager]
  rw [hL, hE, decodeAll_eq_forceDecode]
  exact ⟨rfl, rfl⟩

/-- C2: for every byte span (including the empty span) and every incoming
specificLayers struct, decodePayload succeeds: no failure, the layer is a
Payload layer holding exactly the input bytes, there is no next decoder
and no remaining bytes, and that Payload layer is assigned to the
application slot. -/
theorem decodePayload_spec (data : List Nat) (s : specificLayers) :
    decodePayload data s =
      (decodeResult.mk none (some (Layer.payloadL (Payload.mk data))) none [],
        { s with application := some (Layer.payloadL (Payload.mk data)) }) := rfl

/-- C3: for every byte span and specificLayers value, decodeUnknown fails:
the failure field is set while layer, next and remainder are all absent
(a Go nil slice is the empty list), and the specificLayers struct is
returned unchanged in every slot. -/
theorem decodeUnknown_spec (data : List Nat) (s : specificLayers) :
    decodeUnknown data s =
      (decodeResult.mk (some "Link type not currently supported") none none [],
        s) := rfl

/-- C4 as stated is false at a concrete input: with the empty registry,
link type 0 and empty input bytes, eager decoding yields one error layer
whose cause is the source string "Link type not currently supported", not
the string "unsupported link type" quoted by the claim. -/
theorem unknown_cause_counterexample :
    (newPacket [] [] 0 Eager 1).layers ≠
      [Layer.failureL (DecodeFailure.mk [] "unsupported link type")] := by
  decide

/-- C4 (amended): for every registry, byte span and positive fuel, if the
link type is not registered, decoding yields a chain consisting of exactly
one error layer with cause "Link type not currently supported", and
nothing is left pending (the total model never panics). -/
theorem unknown_link_type_chain (reg : List (Nat × decoderFunc))
    (data : List Nat) (lt : Nat) (fuel : Nat)
    (hreg : reg.find? (fun kv => kv.fst == lt) = none) (hf : 0 < fuel) :
    (newPacket reg data lt Eager fuel).layers =
      [Layer.failureL (DecodeFailure.mk data "Link type not currently supported")] ∧
    (newPacket reg data lt Eager fuel).pending = none := by
  obtain ⟨k, rfl⟩ : ∃ k, fuel = k + 1 :=
    ⟨fuel - 1, (Nat.succ_pred_eq_of_pos hf).symm⟩
  have hlook : lookupDecoder reg lt = decodeUnknown := by
    unfold lookupDecoder
    rw [hreg]
  have hE : newPacket reg data lt Eager (k + 1) =
      decodeAll (k + 1) ⟨[], {}, some (decodeUnknown, data)⟩ := by
    simp [newPacket, Lazy, Eager, hlook]
  rw [hE]
  have hstep :
      decodeStep ⟨[], {}, some (decodeUnknown, data)⟩ =
        ⟨[Layer.failureL
            (DecodeFailure.mk data "Link type not currently supported")],
          { failure := some (Layer.failureL
              (DecodeFailure.mk data "Link type not currently supported")) },
          none⟩ := rfl
  unfold decodeAll
  rw [hstep, decodeAll_of_pending_none k _ rfl]
  exact ⟨rfl, rfl⟩

/-- Witness for C4's amended theorem at a concrete input: link type 7 is
absent from the empty registry, the fuel 2 is positive, and decoding the
bytes [5] yields exactly one error layer with the source cause. -/
theorem unknown_link_type_chain_witness :
    (List.find? (fun kv => kv.fst == 7) ([] : List (Nat × decoderFunc)) = none) ∧
    0 < 2 ∧
    ((newPacket [] [5] 7 Eager 2).layers =
      [Layer.failureL (DecodeFailure.mk [5] "Link type not currently supported")] ∧
    (newPacket [] [5] 7 Eager 2).pending = none) :=
  ⟨rfl, by decide, unknown_link_type_chain [] [5] 7 2 rfl (by decide)⟩

/-- C5: the baseline decoders are deterministic and idempotent: invoking
decodePayload (or decodeUnknown) on the same byte span with any two fresh
specificLayers structs yields decodeResults with the same layer, the same
next decoder, the same remainder and the same failure. -/
theorem baseline_decoders_deterministic (data : List Nat)
    (s t : specificLayers) :
    ((decodePayload data s).fst.layer = (decodePayload data t).fst.layer ∧
     (decodePayload data s).fst.next = (decodePayload data t).fst.next ∧
     (decodePayload data s).fst.left = (decodePayload data t).fst.left ∧
     (decodePayload data s).fst.err = (decodePayload data t).fst.err) ∧
    ((decodeUnknown data s).fst.layer = (decodeUnknown data t).fst.layer ∧
     (decodeUnknown data s).fst.next = (decodeUnknown data t).fst.next ∧
     (decodeUnknown data s).fst.left = (decodeUnknown data t).fst.left ∧
     (decodeUnknown data s).fst.err = (decodeUnknown data t).fst.err) :=
  ⟨⟨rfl, rfl, rfl, rfl⟩, ⟨rfl, rfl, rfl, rfl⟩⟩

/-- C6: a DecodeFailure layer exposes exactly what it stores: constructed
from bytes d and error e, its Payload method returns d, its Error method
returns e, and its LayerType method returns TYPE_DECODE_FAILURE. -/
theorem DecodeFailure_accessors (d : List Nat) (e : String) :
    (DecodeFailure.mk d e).Payload = d ∧
    (DecodeFailure.mk d e).Error = e ∧
    (DecodeFailure.mk d e).LayerType = TYPE_DECODE_FAILURE :=
  ⟨rfl, rfl, rfl⟩

/-- C7: the evaluation-mode selector admits exactly two values: every
DecodeMethod is either Lazy or Eager, and Lazy and Eager are distinct. -/
theorem DecodeMethod_exactly_two :
    (∀ m : DecodeMethod, m = Lazy ∨ m = Eager) ∧ Lazy ≠ Eager := by
  constructor
  · intro m
    cases m with
    | false => exact Or.inr rfl
    | true => exact Or.inl rfl
  · decide

/-- C8: decodePayload populates at most one specificLayers slot: it writes
only the application slot, leaving the link, network, transport and error
slots of the struct it is given unchanged. -/
theorem decodePayload_frame (data : List Nat) (s : specificLayers) :
    (decodePayload data s).snd.link = s.link ∧
    (decodePayload data s).snd.network = s.network ∧
    (decodePayload data s).snd.transport = s.transport ∧
    (decodePayload data s).snd.failure = s.failure :=
  ⟨rfl, rfl, rfl, rfl⟩

/-- C9: wrapping a function as a decoder changes nothing: for every
function d of type decoderFunc, every byte span and every specificLayers
value, the decode method of the wrapper returns exactly what d returns. -/
theorem decoderFunc_decode_eq (d : decoderFunc) (data : List Nat)
    (s : specificLayers) :
    decoderFunc.decode d data s = d data s := rfl

/-- C10: after decodePayload runs on any byte span, the layer field of the
returned decodeResult and the application slot of the updated
specificLayers struct hold the very same Payload layer. -/
theorem decodePayload_layer_is_application (data : List Nat)
    (s : specificLayers) :
    (decodePayload data s).fst.layer = (decodePayload data s).snd.application ∧
    (decodePayload data s).fst.layer =
      some (Layer.payloadL (Payload.mk data)) :=
  ⟨rfl, rfl⟩

end gopacket
